import Mathlib

/-!
Verification of the pthread-chat server core (server.c / common.h).

The development shallowly embeds the server-side session registry, the
message router, the whiteboard (activity log) circular buffer, and the
relevant parts of the per-connection handler `handle_client`.  C strings
are modelled as Lean `String` values (the bytes up to the first null);
the byte-level handshake path is modelled separately where termination
of the stored bytes is itself the question.  Network sends, log appends
and socket closes are recorded as explicit effect lists.
-/

namespace PthreadChat

/-! ## Constants (common.h, lines 13-16) -/

def MAX_CLIENTS : Nat := 10
def MAX_USERNAME : Nat := 20
def MAX_MESSAGE : Nat := 256
def WHITEBOARD_SIZE : Nat := 10

/-- A single-quote character as a string, used in the formatted error texts. -/
def quot : String := String.singleton (Char.ofNat 39)

/-! ## Wire message (common.h, lines 19-35) -/

/-- `MessageType` enum from common.h. -/
inductive MessageType
  | MSG_LOGIN
  | MSG_LOGOUT
  | MSG_BROADCAST
  | MSG_PRIVATE
  | MSG_ERROR
deriving DecidableEq, Repr

/-- The `Message` struct from common.h, with the fixed char arrays modelled
as the strings they hold up to the first null byte. -/
structure Message where
  type : MessageType
  sender : String
  recipient : String
  content : String
deriving DecidableEq, Repr

/-! ## Session registry (server.c, lines 59-68)

The C code keeps a fixed array `Client clients[MAX_CLIENTS]` and a count
`client_count`; every operation touches only indices below `client_count`
and preserves the order of the survivors.  The active prefix
`clients[0 .. client_count-1]` is therefore modelled as a list, in array
order; `client_count` is its length. -/

/-- The `Client` struct from server.c: socket descriptor plus username. -/
structure Client where
  socket : Nat
  username : String
deriving DecidableEq, Repr

/-- The active prefix of the `clients` array, in array order. -/
abbrev Registry := List Client

/-- `find_client` (server.c, lines 200-218): linear scan over the active
clients, first match by exact `strcmp` equality wins; returns the socket
of the match.  The whole scan runs under `clients_mutex`. -/
def find_client (reg : Registry) (username : String) : Option Nat :=
  match reg with
  | [] => none
  | c :: rest => if c.username = username then some c.socket else find_client rest username

/-- The registration block of `handle_client` (server.c, lines 316-321):
writes the new client at index `client_count` and increments the count,
all under `clients_mutex`.  The source performs NO capacity check before
writing, so the model appends unconditionally. -/
def register (reg : Registry) (sock : Nat) (username : String) : Registry :=
  reg ++ [{ socket := sock, username := username }]

/-! ## Whiteboard message formatting (server.c, lines 86-152) -/

/-- `ServerMsgType` enum from server.c. -/
inductive ServerMsgType
  | MSG_TYPE_BROADCAST
  | MSG_TYPE_PRIVATE
  | MSG_TYPE_LOGIN
  | MSG_TYPE_LOGOUT
  | MSG_TYPE_ERROR
deriving DecidableEq, Repr

def ANSI_RESET : String := "\x1b[0m"
def ANSI_RED : String := "\x1b[31m"
def ANSI_GREEN : String := "\x1b[32m"
def ANSI_YELLOW : String := "\x1b[33m"
def ANSI_BLUE : String := "\x1b[34m"
def ANSI_MAGENTA : String := "\x1b[35m"

/-- `get_msg_properties` (server.c, lines 102-125): the (color, tag) pair
for each server message type. -/
def get_msg_properties : ServerMsgType → String × String
  | .MSG_TYPE_BROADCAST => (ANSI_BLUE, "BROADCAST")
  | .MSG_TYPE_PRIVATE => (ANSI_MAGENTA, "PRIVATE")
  | .MSG_TYPE_LOGIN => (ANSI_GREEN, "LOGIN")
  | .MSG_TYPE_LOGOUT => (ANSI_YELLOW, "LOGOUT")
  | .MSG_TYPE_ERROR => (ANSI_RED, "ERROR")

/-- A log append as produced by `format_whiteboard_msg`: the category tag
together with the already-formatted body (the vsnprintf result). -/
abbrev LogEvent := ServerMsgType × String

/-- `format_whiteboard_msg` (server.c, lines 134-152) renders the full
line `color ++ tag ++ ANSI_RESET ++ " - " ++ body` that it hands to
`update_whiteboard`. -/
def format_whiteboard_msg (ev : LogEvent) : String :=
  (get_msg_properties ev.1).1 ++ (get_msg_properties ev.1).2 ++ ANSI_RESET ++ " - " ++ ev.2

/-! ## Observable effects of a router / handler call -/

/-- The observable effects of one call: `send` calls in order (socket and
frame), whiteboard appends in order, and `close` calls. -/
structure Effects where
  sends : List (Nat × Message)
  logs : List LogEvent
  closes : List Nat
deriving DecidableEq, Repr

/-! ## Message router (server.c, lines 226-280) -/

/-- `broadcast_message` (server.c, lines 226-242): under `clients_mutex`,
send the frame to every active client whose socket differs from
`sender_socket`, in array order; then log one BROADCAST entry
`"<sender>: <content>"`.  The registry is not mutated and nothing is
closed. -/
def broadcast_message (reg : Registry) (msg : Message) (sender_socket : Nat) : Effects :=
  { sends := (reg.filter (fun c => c.socket ≠ sender_socket)).map (fun c => (c.socket, msg))
    logs := [(.MSG_TYPE_BROADCAST, msg.sender ++ ": " ++ msg.content)]
    closes := [] }

/-- The error frame built in `send_private_message` (server.c, lines
260-263) when the recipient is not found.  The source sets `type`,
`content` and `sender` of a stack-local `Message` and leaves `recipient`
uninitialized; the model fixes that unobserved field to the empty
string. -/
def unknown_recipient_error (recipient : String) : Message :=
  { type := .MSG_ERROR
    sender := "Server"
    recipient := ""
    content := "User " ++ quot ++ recipient ++ quot ++ " does not exist or is offline" }

/-- `send_private_message` (server.c, lines 252-280).  If
`find_client msg.recipient` fails: build the error frame, look up
`msg.sender` BY NAME and, when a session bears that name, send the error
frame to that socket; log one ERROR entry.  If the recipient is found:
send the frame unmodified to the recipient socket and log one PRIVATE
entry.  No branch mutates the registry or closes a socket. -/
def send_private_message (reg : Registry) (msg : Message) : Effects :=
  match find_client reg msg.recipient with
  | none =>
      { sends :=
          match find_client reg msg.sender with
          | some sender_socket => [(sender_socket, unknown_recipient_error msg.recipient)]
          | none => []
        logs := [(.MSG_TYPE_ERROR,
          msg.sender ++ " tried to message non-existent user " ++ msg.recipient)]
        closes := [] }
  | some recipient_socket =>
      { sends := [(recipient_socket, msg)]
        logs := [(.MSG_TYPE_PRIVATE,
          msg.sender ++ " to " ++ msg.recipient ++ ": " ++ msg.content)]
        closes := [] }

/-! ## Connection handler: handshake (server.c, lines 291-329) -/

/-- Connection handler states (spec section 4.4). -/
inductive ConnState
  | Handshaking
  | Registered
  | Closed
deriving DecidableEq, Repr

/-- The duplicate-name error frame of `handle_client` (server.c, lines
308-310): the designated initializer zeroes every field, then `content`
and `sender` are filled in, so `recipient` is the empty string. -/
def duplicate_name_error (username : String) : Message :=
  { type := .MSG_ERROR
    sender := "Server"
    recipient := ""
    content := "Username " ++ quot ++ username ++ quot ++ " is already in use" }

/-- The `MSG_LOGIN` notice broadcast after a successful registration
(server.c, lines 326-328): the designated initializer zeroes `recipient`. -/
def login_notice (username : String) : Message :=
  { type := .MSG_LOGIN
    sender := username
    recipient := ""
    content := "has joined the chat" }

/-- The handshake portion of `handle_client` after the username frame has
been received (server.c, lines 305-329).  On a duplicate name: send one
error frame to the connection, close it, leave the registry unchanged.
Otherwise: register (no capacity check in the source), log a LOGIN
entry, then broadcast the login notice excluding the new socket (which
appends its own BROADCAST entry). -/
def handle_client_handshake (reg : Registry) (client_socket : Nat) (username : String) :
    Registry × Effects × ConnState :=
  match find_client reg username with
  | some _ =>
      (reg,
       { sends := [(client_socket, duplicate_name_error username)]
         logs := []
         closes := [client_socket] },
       .Closed)
  | none =>
      let reg' := register reg client_socket username
      let bc := broadcast_message reg' (login_notice username) client_socket
      (reg',
       { sends := bc.sends
         logs := (.MSG_TYPE_LOGIN, username ++ " has joined the chat") :: bc.logs
         closes := [] },
       .Registered)

/-! ## The registered-state receive loop (server.c, lines 332-370)

One iteration of the `while (1)` loop for a successfully received frame
(`bytes > 0`).  The loop reacts only to `MSG_PRIVATE`; every other
message type falls through with no handler at all. -/

/-- Replays the whiteboard appends of a list of log events, each rendered
by `format_whiteboard_msg` before being written (update_whiteboard is
defined below; here we only collect the rendered lines). -/
def rendered_lines (logs : List LogEvent) : List String :=
  logs.map format_whiteboard_msg

/-- One iteration of the message loop of `handle_client` for a frame that
was received successfully (server.c, lines 366-369): `MSG_PRIVATE`
dispatches to `send_private_message`; any other type does nothing.  The
registry is returned unchanged in both branches because no branch of the
loop body mutates it for a well-received frame. -/
def handle_frame (reg : Registry) (msg : Message) : Registry × Effects :=
  if msg.type = .MSG_PRIVATE then
    (reg, send_private_message reg msg)
  else
    (reg, { sends := [], logs := [], closes := [] })

/-! ## Whiteboard (server.c, lines 74-81 and 162-191)

`Whiteboard` is a circular buffer of `WHITEBOARD_SIZE` fixed-size char
arrays plus a cursor.  Each slot holds `MAX_USERNAME + MAX_MESSAGE + 50`
bytes; `update_whiteboard` copies at most `sizeof - 1` bytes of the
incoming line with `strncpy` (the final byte is never written and stays
null from the zero initialization), so a stored entry is the first
`ENTRY_CAP` characters of the line.  The cursor always stays below
`WHITEBOARD_SIZE`, which the model enforces with a `Fin`. -/

/-- Capacity of one whiteboard slot as a string:
`sizeof(whiteboard.messages[0]) - 1` bytes are copied by `strncpy`. -/
def ENTRY_CAP : Nat := MAX_USERNAME + MAX_MESSAGE + 50 - 1

structure Whiteboard where
  messages : Fin WHITEBOARD_SIZE → String
  current_index : Fin WHITEBOARD_SIZE

/-- The zero-initialized whiteboard `{{0}, 0}` (server.c, line 80). -/
def Whiteboard.init : Whiteboard :=
  { messages := fun _ => "", current_index := ⟨0, by decide⟩ }

/-- The mutation performed by `update_whiteboard` (server.c, lines
167-169): store the (truncated) line at the cursor and advance the
cursor modulo `WHITEBOARD_SIZE`. -/
def update_whiteboard (wb : Whiteboard) (message : String) : Whiteboard :=
  { messages := Function.update wb.messages wb.current_index (message.take ENTRY_CAP)
    current_index := ⟨(wb.current_index.val + 1) % WHITEBOARD_SIZE, Nat.mod_lt _ (by decide)⟩ }

/-- Appending a whole sequence of lines, oldest first. -/
def append_all (wb : Whiteboard) (msgs : List String) : Whiteboard :=
  msgs.foldl update_whiteboard wb

/-- The slots visited by the render loop (server.c, lines 182-187), in
visit order: slot `(current_index + i) % WHITEBOARD_SIZE` for
`i = 0 .. WHITEBOARD_SIZE - 1`, i.e. oldest to newest. -/
def render_slots (wb : Whiteboard) : List String :=
  (List.range WHITEBOARD_SIZE).map
    (fun i => wb.messages ⟨(wb.current_index.val + i) % WHITEBOARD_SIZE, Nat.mod_lt _ (by decide)⟩)

/-- The lines the render loop actually prints: the non-empty slots, in
visit order (slots whose first byte is null are skipped). -/
def render_lines (wb : Whiteboard) : List String :=
  (render_slots wb).filter (fun s => s ≠ "")

/-! ## Interleaved registration (C2)

In `handle_client` the duplicate check (`find_client`, server.c line
306) and the insertion (lines 317-321) are two SEPARATE acquisitions of
`clients_mutex`.  The model below makes each mutex-protected section one
atomic step and lets a scheduler interleave two concurrently running
handshakes. -/

/-- Where a handshake thread stands: before its duplicate check, past a
successful check but before its insertion, finished inserting, or
rejected by the check. -/
inductive HandshakePhase
  | beforeCheck
  | passedCheck
  | inserted
  | rejected
deriving DecidableEq, Repr

structure HandshakeThread where
  sock : Nat
  name : String
  phase : HandshakePhase
deriving DecidableEq, Repr

/-- One atomic (mutex-protected) step of a handshake thread: its
`find_client` scan, or its registration block.  Threads in a terminal
phase do nothing. -/
def handshake_step (reg : Registry) (t : HandshakeThread) : Registry × HandshakeThread :=
  match t.phase with
  | .beforeCheck =>
      match find_client reg t.name with
      | some _ => (reg, { t with phase := .rejected })
      | none => (reg, { t with phase := .passedCheck })
  | .passedCheck => (register reg t.sock t.name, { t with phase := .inserted })
  | _ => (reg, t)

/-- Two handshake threads racing on the shared registry. -/
structure RaceState where
  reg : Registry
  t1 : HandshakeThread
  t2 : HandshakeThread
deriving DecidableEq, Repr

/-- The scheduler picks which thread performs its next atomic step:
`false` steps thread 1, `true` steps thread 2. -/
def race_step (s : RaceState) (who : Bool) : RaceState :=
  if who then
    let (reg', t') := handshake_step s.reg s.t2
    { s with reg := reg', t2 := t' }
  else
    let (reg', t') := handshake_step s.reg s.t1
    { s with reg := reg', t1 := t' }

/-- Running a whole schedule. -/
def race_run (s : RaceState) (sched : List Bool) : RaceState :=
  sched.foldl race_step s

/-- Username uniqueness among active sessions, as a decidable predicate. -/
def usernames_unique (reg : Registry) : Bool :=
  (reg.map Client.username).Nodup

/-! ## Byte-level handshake buffer (C8)

`handle_client` receives the username frame with
`recv(client_socket, username, MAX_USERNAME, 0)` into a zero-initialized
20-byte stack buffer, then stores it with
`strncpy(clients[client_count].username, username, MAX_USERNAME)`.
A username field is a fixed 20-byte array; it is null-terminated exactly
when one of its bytes is 0. -/

/-- The local `username[MAX_USERNAME] = {0}` buffer after `recv` wrote a
frame of up to `MAX_USERNAME` bytes into its front (server.c, lines
296-299): received bytes first, the untouched zero-initialized rest
after them. -/
def recv_username_buffer (frame : List Nat) : List Nat :=
  frame.take MAX_USERNAME ++ List.replicate (MAX_USERNAME - frame.length) 0

/-- `strncpy(dst, src, MAX_USERNAME)` into a 20-byte field (server.c,
line 319): copies the bytes of `src` before its first null, at most
`MAX_USERNAME` of them, then pads the remainder of the field with
nulls.  When `src` holds no null among its first `MAX_USERNAME` bytes,
nothing pads and the field ends unterminated. -/
def strncpy_username (src : List Nat) : List Nat :=
  let copied := (src.takeWhile (fun b => b ≠ 0)).take MAX_USERNAME
  copied ++ List.replicate (MAX_USERNAME - copied.length) 0

/-- The bytes stored into `clients[client_count].username` for a given
handshake frame. -/
def stored_username_bytes (frame : List Nat) : List Nat :=
  strncpy_username (recv_username_buffer frame)

/-- A fixed-size string field is null-terminated iff some byte of the
field is 0. -/
def null_terminated (field : List Nat) : Bool :=
  field.any (fun b => b = 0)

/-! ## Concrete scenario data used by the witnesses -/

/-- A registry holding exactly `MAX_CLIENTS` sessions. -/
def full_registry : Registry :=
  (List.range MAX_CLIENTS).map (fun i => { socket := i, username := "u" ++ toString i })

/-- Sessions alice (socket 1) and bob (socket 2). -/
def regAB : Registry :=
  [{ socket := 1, username := "alice" }, { socket := 2, username := "bob" }]

def msg_to_carol : Message :=
  { type := .MSG_PRIVATE, sender := "alice", recipient := "carol", content := "hi" }

/-- A frame whose sender field is spoofed to name bob although it came in
on a different connection. -/
def msg_spoofed : Message :=
  { type := .MSG_PRIVATE, sender := "bob", recipient := "carol", content := "hi" }

/-- A frame whose sender field names nobody. -/
def msg_ghost : Message :=
  { type := .MSG_PRIVATE, sender := "ghost", recipient := "carol", content := "hi" }

def msg_to_bob : Message :=
  { type := .MSG_PRIVATE, sender := "alice", recipient := "bob", content := "hi" }

def msg_bcast : Message :=
  { type := .MSG_BROADCAST, sender := "alice", recipient := "", content := "yo" }

/-- Two handshakes for the same name racing from an empty registry. -/
def race_init : RaceState :=
  { reg := []
    t1 := { sock := 1, name := "alice", phase := .beforeCheck }
    t2 := { sock := 2, name := "alice", phase := .beforeCheck } }

/-- Both duplicate checks run before either insertion. -/
def race_schedule : List Bool := [false, true, false, true]

def eleven_lines : List String :=
  ["m0", "m1", "m2", "m3", "m4", "m5", "m6", "m7", "m8", "m9", "m10"]

/-! ## Shared lemmas about the whiteboard -/

lemma render_slots_init : render_slots Whiteboard.init = List.replicate WHITEBOARD_SIZE "" := by
  rfl

lemma render_slots_update (wb : Whiteboard) (m : String) :
    render_slots (update_whiteboard wb m) =
      (render_slots wb).tail ++ [m.take ENTRY_CAP] := by
  obtain ⟨f, c⟩ := wb
  have hr : List.range 10 = [0,1,2,3,4,5,6,7,8,9] := rfl
  fin_cases c <;>
    simp [render_slots, update_whiteboard, WHITEBOARD_SIZE, hr, Function.update_apply,
      Fin.ext_iff, Fin.coe_ofNat_eq_mod]

lemma append_all_concat (wb : Whiteboard) (ms : List String) (m : String) :
    append_all wb (ms ++ [m]) = update_whiteboard (append_all wb ms) m := by
  simp [append_all, List.foldl_append]

lemma render_slots_append_all (msgs : List String) :
    render_slots (append_all Whiteboard.init msgs) =
      (List.replicate WHITEBOARD_SIZE "" ++ msgs.map (fun m => m.take ENTRY_CAP)).drop
        msgs.length := by
  induction msgs using List.reverseRecOn with
  | nil => simpa using render_slots_init
  | append_singleton ms m ih =>
      rw [append_all_concat, render_slots_update, ih, List.map_append,
        ← List.append_assoc, List.length_append, List.tail_drop,
        List.drop_append_eq_append_drop]
      have h0 : ms.length + 1 - WHITEBOARD_SIZE - ms.length = 0 := by
        unfold WHITEBOARD_SIZE; omega
      simp [List.drop_append_eq_append_drop, List.drop_replicate, List.append_assoc, h0]

/-! ## Claim theorems -/

/-- C1: the claim says a registration attempted when the active session
count equals MAX_CLIENTS fails with CapacityError without adding a
session, and the count never exceeds MAX_CLIENTS.  The source has no
capacity check: evaluated on a full registry, the handshake registers an
eleventh session and the count exceeds MAX_CLIENTS. -/
theorem C1_registration_at_capacity_overflows :
    full_registry.length = MAX_CLIENTS ∧
    find_client full_registry "newbie" = none ∧
    (handle_client_handshake full_registry 99 "newbie").1.length = MAX_CLIENTS + 1 ∧
    (handle_client_handshake full_registry 99 "newbie").2.2 = ConnState.Registered :=
  ⟨rfl, rfl, rfl, rfl⟩

/-- C2: the claim says the duplicate check and the insertion are one
atomic step, so no interleaving of two registrations with the same name
lets both succeed.  In the source they are two separate acquisitions of
clients_mutex; under the schedule check-check-insert-insert both
handshakes for the name alice succeed and the registry ends with two
sessions of the same username. -/
theorem C2_duplicate_check_races_with_insert :
    (race_run race_init race_schedule).reg =
      [{ socket := 1, username := "alice" }, { socket := 2, username := "alice" }] ∧
    (race_run race_init race_schedule).t1.phase = HandshakePhase.inserted ∧
    (race_run race_init race_schedule).t2.phase = HandshakePhase.inserted ∧
    usernames_unique (race_run race_init race_schedule).reg = false :=
  ⟨rfl, rfl, rfl, rfl⟩

/-- C3: registering a username already held by an active session fails:
the connection is sent exactly one error frame with content
`Username <SQ>name<SQ> is already in use`, is closed, and the registry is
returned unchanged. -/
theorem C3_duplicate_registration_rejected (reg : Registry) (sock s : Nat) (u : String)
    (h : find_client reg u = some s) :
    handle_client_handshake reg sock u =
      (reg,
       { sends := [(sock, duplicate_name_error u)], logs := [], closes := [sock] },
       ConnState.Closed) ∧
    (duplicate_name_error u).type = MessageType.MSG_ERROR ∧
    (duplicate_name_error u).content =
      "Username " ++ quot ++ u ++ quot ++ " is already in use" := by
  refine ⟨?_, rfl, rfl⟩
  unfold handle_client_handshake
  rw [h]

theorem C3_duplicate_registration_rejected_witness :
    handle_client_handshake regAB 7 "alice" =
      (regAB,
       { sends := [(7, duplicate_name_error "alice")], logs := [], closes := [7] },
       ConnState.Closed) :=
  (C3_duplicate_registration_rejected regAB 7 1 "alice" rfl).1

/-- C4: for a private message whose recipient is not active, every send
goes to the session registered under the message sender name (so no
other connection receives anything), a registered sender receives
exactly one error frame with sender Server and the prescribed content,
exactly one error-tagged log entry naming sender and attempted recipient
is appended, and no connection is closed. -/
theorem C4_private_unknown_recipient (reg : Registry) (m : Message)
    (hr : find_client reg m.recipient = none) :
    (∀ p ∈ (send_private_message reg m).sends,
        find_client reg m.sender = some p.1 ∧ p.2 = unknown_recipient_error m.recipient) ∧
    (∀ s, find_client reg m.sender = some s →
        (send_private_message reg m).sends = [(s, unknown_recipient_error m.recipient)]) ∧
    (send_private_message reg m).logs =
      [(ServerMsgType.MSG_TYPE_ERROR,
        m.sender ++ " tried to message non-existent user " ++ m.recipient)] ∧
    (send_private_message reg m).closes = [] ∧
    (unknown_recipient_error m.recipient).type = MessageType.MSG_ERROR ∧
    (unknown_recipient_error m.recipient).sender = "Server" ∧
    (unknown_recipient_error m.recipient).content =
      "User " ++ quot ++ m.recipient ++ quot ++ " does not exist or is offline" := by
  unfold send_private_message
  rw [hr]
  cases hs : find_client reg m.sender <;> simp [hs, unknown_recipient_error]

theorem C4_private_unknown_recipient_witness :
    (send_private_message regAB msg_to_carol).sends =
      [(1, unknown_recipient_error "carol")] ∧
    (send_private_message regAB msg_to_carol).closes = [] :=
  ⟨(C4_private_unknown_recipient regAB msg_to_carol rfl).2.1 1 rfl,
   (C4_private_unknown_recipient regAB msg_to_carol rfl).2.2.2.1⟩

/-- C5: a private message whose recipient is active is sent unmodified to
exactly the recipient socket and nothing else, with exactly one
private-tagged log entry naming sender, recipient and content. -/
theorem C5_private_delivery (reg : Registry) (m : Message) (s : Nat)
    (h : find_client reg m.recipient = some s) :
    send_private_message reg m =
      { sends := [(s, m)]
        logs := [(ServerMsgType.MSG_TYPE_PRIVATE,
          m.sender ++ " to " ++ m.recipient ++ ": " ++ m.content)]
        closes := [] } := by
  unfold send_private_message
  rw [h]

theorem C5_private_delivery_witness :
    send_private_message regAB msg_to_bob =
      { sends := [(2, msg_to_bob)]
        logs := [(ServerMsgType.MSG_TYPE_PRIVATE,
          msg_to_bob.sender ++ " to " ++ msg_to_bob.recipient ++ ": " ++ msg_to_bob.content)]
        closes := [] } :=
  C5_private_delivery regAB msg_to_bob 2 rfl

/-- C6: a broadcast is sent to every session of the point-in-time
snapshot whose socket differs from the excluded handle, every send
targets such a session with the unmodified message, and exactly one
log entry describing sender and content is appended. -/
theorem C6_broadcast_snapshot (reg : Registry) (m : Message) (ex : Nat) :
    (∀ c ∈ reg, c.socket ≠ ex → (c.socket, m) ∈ (broadcast_message reg m ex).sends) ∧
    (∀ p ∈ (broadcast_message reg m ex).sends,
        p.2 = m ∧ p.1 ≠ ex ∧ ∃ c ∈ reg, c.socket = p.1) ∧
    (broadcast_message reg m ex).logs =
      [(ServerMsgType.MSG_TYPE_BROADCAST, m.sender ++ ": " ++ m.content)] ∧
    (broadcast_message reg m ex).closes = [] := by
  refine ⟨?_, ?_, rfl, rfl⟩
  · intro c hc hne
    simp only [broadcast_message, List.mem_map, List.mem_filter]
    exact ⟨c, ⟨hc, by simpa using hne⟩, rfl⟩
  · intro p hp
    simp only [broadcast_message, List.mem_map, List.mem_filter] at hp
    obtain ⟨c, ⟨hc, hne⟩, rfl⟩ := hp
    exact ⟨rfl, by simpa using hne, c, hc, rfl⟩

theorem C6_broadcast_snapshot_witness :
    ((2 : Nat), msg_bcast) ∈ (broadcast_message regAB msg_bcast 1).sends ∧
    (broadcast_message regAB msg_bcast 1).logs =
      [(ServerMsgType.MSG_TYPE_BROADCAST, msg_bcast.sender ++ ": " ++ msg_bcast.content)] :=
  ⟨(C6_broadcast_snapshot regAB msg_bcast 1).1 { socket := 2, username := "bob" }
      (by simp [regAB]) (by decide),
   (C6_broadcast_snapshot regAB msg_bcast 1).2.2.1⟩

/-- C7: the whiteboard render never shows more than WHITEBOARD_SIZE
entries, and after more than WHITEBOARD_SIZE appends it shows exactly
the non-empty ones among the most recent WHITEBOARD_SIZE appended lines
(each truncated to a slot), oldest to newest: FIFO eviction. -/
theorem C7_whiteboard_fifo (msgs : List String) :
    (render_lines (append_all Whiteboard.init msgs)).length ≤ WHITEBOARD_SIZE ∧
    (WHITEBOARD_SIZE < msgs.length →
      render_lines (append_all Whiteboard.init msgs) =
        ((msgs.drop (msgs.length - WHITEBOARD_SIZE)).map (fun m => m.take ENTRY_CAP)).filter
          (fun s => s ≠ "")) := by
  constructor
  · calc (render_lines (append_all Whiteboard.init msgs)).length
        ≤ (render_slots (append_all Whiteboard.init msgs)).length :=
          List.length_filter_le _ _
      _ = WHITEBOARD_SIZE := by simp [render_slots]
  · intro h
    unfold render_lines
    rw [render_slots_append_all, List.drop_append_eq_append_drop, List.drop_replicate]
    have h1 : WHITEBOARD_SIZE - msgs.length = 0 := by omega
    have h2 : msgs.length - (List.replicate WHITEBOARD_SIZE "").length =
        msgs.length - WHITEBOARD_SIZE := by simp
    rw [h1, h2, List.replicate_zero, List.nil_append, ← List.map_drop]

theorem C7_whiteboard_fifo_witness :
    WHITEBOARD_SIZE < eleven_lines.length ∧
    render_lines (append_all Whiteboard.init eleven_lines) =
      ((eleven_lines.drop (eleven_lines.length - WHITEBOARD_SIZE)).map
        (fun m => m.take ENTRY_CAP)).filter (fun s => s ≠ "") :=
  ⟨by decide, (C7_whiteboard_fifo eleven_lines).2 (by decide)⟩

/-- C8: the claim says every stored string field is always
null-terminated, in particular for a handshake frame of exactly
MAX_USERNAME non-null bytes.  Evaluated on that very frame, the stored
username field holds MAX_USERNAME bytes and none of them is null; a
short frame, by contrast, is stored terminated. -/
theorem C8_full_handshake_frame_unterminated :
    (stored_username_bytes (List.replicate MAX_USERNAME 97)).length = MAX_USERNAME ∧
    null_terminated (stored_username_bytes (List.replicate MAX_USERNAME 97)) = false ∧
    null_terminated (stored_username_bytes [104, 105]) = true := by
  decide

/-- C9: when a private message names an unknown recipient, the error
reply target is resolved purely by looking the sender FIELD up in the
registry, so it goes to whichever session bears that name, and when no
session does, the reply is dropped while the error log entry is still
appended. -/
theorem C9_error_reply_resolved_by_sender_name (reg : Registry) (m : Message)
    (hr : find_client reg m.recipient = none) :
    (send_private_message reg m).sends =
      (match find_client reg m.sender with
       | some s => [(s, unknown_recipient_error m.recipient)]
       | none => []) ∧
    (find_client reg m.sender = none → (send_private_message reg m).sends = []) ∧
    (send_private_message reg m).logs =
      [(ServerMsgType.MSG_TYPE_ERROR,
        m.sender ++ " tried to message non-existent user " ++ m.recipient)] := by
  unfold send_private_message
  rw [hr]
  refine ⟨rfl, ?_, rfl⟩
  intro hs
  rw [hs]

theorem C9_error_reply_resolved_by_sender_name_witness :
    (send_private_message regAB msg_spoofed).sends =
      [(2, unknown_recipient_error "carol")] ∧
    (send_private_message regAB msg_ghost).sends = [] :=
  ⟨by rw [(C9_error_reply_resolved_by_sender_name regAB msg_spoofed rfl).1]; rfl,
   (C9_error_reply_resolved_by_sender_name regAB msg_ghost rfl).2.1 rfl⟩

/-- C10: while registered, a well-received frame of any type other than
MSG_PRIVATE is a complete no-op: registry unchanged, nothing sent,
nothing logged, nothing closed. -/
theorem C10_non_private_frame_noop (reg : Registry) (m : Message)
    (h : m.type ≠ MessageType.MSG_PRIVATE) :
    handle_frame reg m = (reg, { sends := [], logs := [], closes := [] }) := by
  unfold handle_frame
  rw [if_neg h]

theorem C10_non_private_frame_noop_witness :
    handle_frame regAB msg_bcast = (regAB, { sends := [], logs := [], closes := [] }) :=
  C10_non_private_frame_noop regAB msg_bcast (by decide)

end PthreadChat
